import Mathlib

/-!
Shallow embedding of the core workflows of the Aarthiq backend
(business onboarding, business approval, investor interest / lead tracking),
translated from:

  * src/src/services/onboarding.service.ts
  * src/src/services/interest.service.ts
  * src/unnamed/part_001          (token.utils.ts)
  * src/unnamed/part_008          (admin business service: approveBusiness / rejectBusiness)

Conventions of the embedding:

  * Times (`Date` values) are modelled as integers of epoch milliseconds;
    `setHours(getHours()+h)` is modelled as adding `h * 3600000` ms.
  * Database rows are Lean structures; each service function acts on the row(s)
    the original fetches (the result of the ORM lookups is passed as an
    `Option` argument — `none` models a missing row), and returns
    `Except AppError` of the updated row(s), mirroring thrown errors.
  * Nondeterministic inputs of the original (the random token, the wall
    clock, environment variables, email delivery success) are explicit
    parameters.
-/

namespace Aarthiq

/-- Onboarding request status (`OnboardingStatus` enum of the schema). -/
inductive OnboardingStatus
  | PENDING
  | CONTACTED
  | APPROVED
  | REJECTED
deriving DecidableEq, Repr

/-- Business status enum. -/
inductive BusinessStatus
  | PENDING
  | APPROVED
  | REJECTED
deriving DecidableEq, Repr

/-- Interest submission status (`InterestStatus` enum). -/
inductive InterestStatus
  | NOT_CONTACTED
  | INTERESTED
  | NOT_INTERESTED
deriving DecidableEq, Repr

/-- Modelled from the spec: the domain error classes of `src/utils/errors.ts`
(the file itself is not under src/; only its importers are). The spec's
taxonomy (§7): ValidationError 400, ConflictError 409, NotFoundError 404,
UnauthorizedError 401, ForbiddenError 403, BadRequestError 400. -/
inductive AppError
  | ValidationError (msg : String)
  | ConflictError (msg : String)
  | NotFoundError (msg : String)
  | UnauthorizedError (msg : String)
  | ForbiddenError (msg : String)
  | BadRequestError (msg : String)
deriving DecidableEq, Repr

/-- Modelled from the spec: the HTTP status each error class carries
(`err.statusCode`, used by errorHandler.middleware.ts line 42). -/
def AppError.statusCode : AppError → Nat
  | .ValidationError _ => 400
  | .ConflictError _ => 409
  | .NotFoundError _ => 404
  | .UnauthorizedError _ => 401
  | .ForbiddenError _ => 403
  | .BadRequestError _ => 400

/-- A service call can fail with a domain error, or with an uncaught
email-transport exception (which is not an `AppError`; the central error
handler would turn it into a 500). -/
inductive Failure
  | app (e : AppError)
  | email
deriving DecidableEq, Repr

/-- One row of `BusinessOnboardingRequest` (the fields the embedded
services read or write). -/
structure OnboardingRequest where
  id : String
  businessName : String
  email : String
  phoneNumber : String
  status : OnboardingStatus
  onboardingToken : Option String
  tokenExpiresAt : Option Int
  rejectionReason : Option String
  createdBusinessLoginId : Option String
deriving DecidableEq, Repr

/-! ### token.utils.ts (src/unnamed/part_001) -/

/-- Embedding of `getTokenExpiration(hours?)`:
`const expirationHours = hours || parseInt(process.env.TOKEN_EXPIRATION_HOURS || '72')`
then now + that many hours. JS `||` treats `undefined` and `0` as falsy;
`envHours = none` models an unset `TOKEN_EXPIRATION_HOURS`. -/
def getTokenExpiration (now : Int) (hours : Option Nat) (envHours : Option Nat) : Int :=
  let expirationHours :=
    match hours with
    | some h => if h = 0 then envHours.getD 72 else h
    | none => envHours.getD 72
  now + expirationHours * 3600000

/-- Embedding of `isTokenExpired(expiresAt)`: `if (!expiresAt) return true; return new Date() > expiresAt`. -/
def isTokenExpired (now : Int) (expiresAt : Option Int) : Bool :=
  match expiresAt with
  | none => true
  | some t => now > t

/-! ### onboarding.service.ts -/

/-- Embedding of `approveOnboardingRequest(requestId)`. `req?` is the result of the
`findUnique` on the id; `token` is the value `generateToken()` produced;
`emailOk` is whether `sendOnboardingApprovalEmail` succeeds (its failure is
caught and only logged, so it cannot affect the result). -/
def approveOnboardingRequest (now : Int) (token : String) (envHours : Option Nat)
    (emailOk : Bool) (req? : Option OnboardingRequest) :
    Except Failure OnboardingRequest :=
  match req? with
  | none => .error (.app (.NotFoundError "Onboarding request not found"))
  | some request =>
    if request.status = .APPROVED then
      .error (.app (.BadRequestError "Request already approved"))
    else if request.status = .REJECTED then
      .error (.app (.BadRequestError "Cannot approve a rejected request"))
    else
      let tokenExpiresAt := getTokenExpiration now none envHours
      let updated := { request with
        status := .APPROVED
        onboardingToken := some token
        tokenExpiresAt := some tokenExpiresAt }
      -- try { await sendOnboardingApprovalEmail(...) } catch { console.warn(...) }
      match emailOk with
      | true => .ok updated
      | false => .ok updated

/-- Embedding of `rejectOnboardingRequest(requestId, reason)`. The rejection email is NOT
wrapped in try/catch: if it throws, the call fails after the row was already
updated (`emailOk = false` models that). -/
def rejectOnboardingRequest (reason : String) (emailOk : Bool)
    (req? : Option OnboardingRequest) : Except Failure OnboardingRequest :=
  match req? with
  | none => .error (.app (.NotFoundError "Onboarding request not found"))
  | some request =>
    if request.status = .APPROVED then
      .error (.app (.BadRequestError "Cannot reject an approved request"))
    else
      let updated := { request with
        status := .REJECTED
        rejectionReason := some reason }
      if emailOk then .ok updated else .error .email

/-- Result shape of `validateRegistrationToken`. -/
structure TokenValidationInfo where
  isValid : Bool
  businessName : String
  email : String
  phoneNumber : String
deriving DecidableEq, Repr

/-- Embedding of `validateRegistrationToken(token)`. `req?` is the result of
`findUnique({ where: { onboardingToken: token } })` (the token column is
unique, so at most one row matches). -/
def validateRegistrationToken (now : Int) (req? : Option OnboardingRequest) :
    Except AppError TokenValidationInfo :=
  match req? with
  | none => .error (.NotFoundError "Invalid token")
  | some request =>
    if request.status ≠ .APPROVED then
      .error (.BadRequestError "Token is not valid")
    else if isTokenExpired now request.tokenExpiresAt then
      .error (.BadRequestError "Token has expired")
    else if request.createdBusinessLoginId.isSome then
      .error (.BadRequestError "Token has already been used")
    else
      .ok { isValid := true
            businessName := request.businessName
            email := request.email
            phoneNumber := request.phoneNumber }

/-- One `BusinessLogin` row. -/
structure BusinessLogin where
  id : String
  email : String
  isActive : Bool
deriving DecidableEq, Repr

/-- Embedding of `completeBusinessRegistration(token, password, businessData, files?)`,
restricted to its control flow and the state it changes. `req?` is the
lookup by the (unique) token column; `emailExists` / `regNumExists` are the
results of the two duplicate checks; `newLoginId` is the id the database
assigns the created `BusinessLogin`. The category find-or-create, the hash,
and file processing cannot fail the registration and carry no claim-relevant
state. On success it returns the updated onboarding request (the transaction
sets `createdBusinessLoginId`) and the created login. -/
def completeBusinessRegistration (now : Int) (emailExists regNumExists : Bool)
    (newLoginId : String) (req? : Option OnboardingRequest) :
    Except AppError (OnboardingRequest × BusinessLogin) :=
  match req? with
  | none => .error (.NotFoundError "Invalid token")
  | some request =>
    if request.status ≠ .APPROVED then
      .error (.BadRequestError "Token is not valid")
    else if isTokenExpired now request.tokenExpiresAt then
      .error (.BadRequestError "Token has expired")
    else if request.createdBusinessLoginId.isSome then
      .error (.BadRequestError "Token has already been used")
    else if emailExists then
      .error (.ConflictError "Email already registered")
    else if regNumExists then
      .error (.ConflictError "Registration number already exists")
    else
      let businessLogin : BusinessLogin :=
        { id := newLoginId, email := request.email, isActive := true }
      let updatedRequest := { request with createdBusinessLoginId := some newLoginId }
      .ok (updatedRequest, businessLogin)

/-! ### interest.service.ts -/

/-- The fixed default lead-source list (`DEFAULT_SOURCES`). -/
def DEFAULT_SOURCES : List String :=
  ["aarthiQ Platform", "Website", "Referral", "Social Media", "Manual Entry", "Other"]

/-- One `Business` row (the fields the embedded services read or write). -/
structure Business where
  id : String
  businessLoginId : String
  name : String
  status : BusinessStatus
  rejectionReason : Option String
  ownerEmail : String
deriving DecidableEq, Repr

/-- One `InterestFollowUp` row. -/
structure InterestFollowUp where
  id : String
  interestSubmissionId : String
  followUpNumber : Nat
  remarks : String
  nextFollowUpDate : Option Int
deriving DecidableEq, Repr

/-- One `InterestSubmission` row, together with its `followUps` relation. -/
structure InterestSubmission where
  id : String
  businessId : String
  investorName : String
  phoneNumber : String
  email : String
  message : Option String
  hasConsent : Bool
  contacted : Bool
  followUpRemarks : Option String
  status : InterestStatus
  source : String
  followUps : List InterestFollowUp
deriving DecidableEq, Repr

/-- Modelled from the spec: the prisma schema (not under src/) gives new
`InterestSubmission` rows `contacted = false` by default; `submitInterest`
does not pass `contacted` in its create, so the row starts with this value
("submission status defaults to NOT_CONTACTED, contacted=false", spec §8). -/
def interestContactedDefault : Bool := false

/-- Input payload of `submitInterest`. -/
structure SubmitInterestData where
  businessId : String
  investorName : String
  phoneNumber : String
  email : String
  message : Option String
  hasConsent : Option Bool
  source : Option String
deriving DecidableEq, Repr

/-- JS `x || default` on an optional string: `undefined` and `""` are falsy. -/
def strOrDefault (x : Option String) (d : String) : String :=
  match x with
  | none => d
  | some s => if s = "" then d else s

/-- Embedding of `submitInterest(data)`. `business?` is the `findUnique` on
`data.businessId`; `newId` is the id the database assigns the created row.
The two notification emails are fire-and-forget (`Promise.all(...).catch`):
they cannot affect the result and are not modelled. -/
def submitInterest (business? : Option Business) (data : SubmitInterestData)
    (newId : String) : Except AppError InterestSubmission :=
  match business? with
  | none => .error (.NotFoundError "Business not found")
  | some business =>
    if business.status ≠ .APPROVED then
      .error (.BadRequestError "Business is not available for investment inquiries")
    else
      .ok { id := newId
            businessId := data.businessId
            investorName := data.investorName
            phoneNumber := data.phoneNumber
            email := data.email.toLower
            message := data.message
            hasConsent := data.hasConsent.getD true
            contacted := interestContactedDefault
            followUpRemarks := none
            status := .NOT_CONTACTED
            source := strOrDefault data.source "aarthiQ Platform"
            followUps := [] }

/-- Input payload of `updateInterestFollowUp` (all fields optional;
`none` models an absent key, i.e. `undefined`). -/
structure UpdateInterestData where
  contacted : Option Bool
  followUpRemarks : Option String
  status : Option InterestStatus
  source : Option String
deriving DecidableEq, Repr

/-- The `updateData` object `updateInterestFollowUp` builds field by field. -/
structure InterestUpdateData where
  contacted : Option Bool
  followUpRemarks : Option String
  status : Option InterestStatus
  source : Option String
deriving DecidableEq, Repr

/-- The `// Build update data` block of `updateInterestFollowUp`
(lines 363-386): copies each defined field, and when `status` is defined
and different from NOT_CONTACTED, overwrites `contacted` with `true`. -/
def buildInterestUpdateData (data : UpdateInterestData) : InterestUpdateData :=
  let u : InterestUpdateData :=
    { contacted := none, followUpRemarks := none, status := none, source := none }
  let u := match data.contacted with
    | some c => { u with contacted := some c }
    | none => u
  let u := match data.followUpRemarks with
    | some r => { u with followUpRemarks := some r }
    | none => u
  let u := match data.status with
    | some s =>
      let u := { u with status := some s }
      -- Auto-update contacted based on status
      if s ≠ .NOT_CONTACTED then { u with contacted := some true } else u
    | none => u
  match data.source with
  | some s => { u with source := some s }
  | none => u

/-- Applying a partial update to a row (prisma `update({ data })` semantics:
absent fields keep their stored value). -/
def applyInterestUpdate (interest : InterestSubmission) (u : InterestUpdateData) :
    InterestSubmission :=
  { interest with
    contacted := u.contacted.getD interest.contacted
    followUpRemarks :=
      match u.followUpRemarks with
      | some r => some r
      | none => interest.followUpRemarks
    status := u.status.getD interest.status
    source := u.source.getD interest.source }

/-- Embedding of `updateInterestFollowUp(interestId, businessId, data)`. `interest?` is
the ownership-scoped `findFirst` (`none` when no row has this id AND this
businessId). -/
def updateInterestFollowUp (interest? : Option InterestSubmission)
    (data : UpdateInterestData) : Except AppError InterestSubmission :=
  match interest? with
  | none => .error (.NotFoundError "Interest submission not found")
  | some interest => .ok (applyInterestUpdate interest (buildInterestUpdateData data))

/-- The `followUps` sub-query of `addInterestFollowUp`
(`orderBy: followUpNumber desc, take: 1`): the row with the largest
`followUpNumber`, as an optional value. -/
def maxFollowUpNumber (followUps : List InterestFollowUp) : Option Nat :=
  (followUps.map InterestFollowUp.followUpNumber).max?

/-- Embedding of `addInterestFollowUp(interestId, businessId, remarks, nextFollowUpDate?)`.
Returns the created follow-up and the updated submission (follow-up appended;
`contacted` flipped to true when it was false). `newId` is the id the
database assigns the created row. -/
def addInterestFollowUp (interest? : Option InterestSubmission)
    (remarks : String) (nextFollowUpDate : Option Int) (newId : String) :
    Except AppError (InterestFollowUp × InterestSubmission) :=
  match interest? with
  | none => .error (.NotFoundError "Interest submission not found")
  | some interest =>
    -- Calculate the next follow-up number
    let nextFollowUpNumber :=
      match maxFollowUpNumber interest.followUps with
      | some m => m + 1
      | none => 1
    let followUp : InterestFollowUp :=
      { id := newId
        interestSubmissionId := interest.id
        followUpNumber := nextFollowUpNumber
        remarks := remarks
        nextFollowUpDate := nextFollowUpDate }
    -- Also mark as contacted if not already
    let withFollowUp := { interest with followUps := interest.followUps ++ [followUp] }
    let updated :=
      if !interest.contacted then { withFollowUp with contacted := true }
      else withFollowUp
    .ok (followUp, updated)

/-- The follow-up number `addInterestFollowUp` computes for a submission:
the largest existing `followUpNumber` plus one, or 1 when there is none
(a decomposition of the body of `addInterestFollowUp`, used to state its
specification; `addInterestFollowUp_eq` certifies the agreement). -/
def nextFollowUpNumberOf (interest : InterestSubmission) : Nat :=
  match maxFollowUpNumber interest.followUps with
  | some m => m + 1
  | none => 1

/-- The follow-up row `addInterestFollowUp` creates (decomposition). -/
def newFollowUp (interest : InterestSubmission) (remarks : String)
    (nextFollowUpDate : Option Int) (newId : String) : InterestFollowUp :=
  { id := newId
    interestSubmissionId := interest.id
    followUpNumber := nextFollowUpNumberOf interest
    remarks := remarks
    nextFollowUpDate := nextFollowUpDate }

/-- The submission state after `addInterestFollowUp` (decomposition). -/
def afterAddFollowUp (interest : InterestSubmission) (remarks : String)
    (nextFollowUpDate : Option Int) (newId : String) : InterestSubmission :=
  let withFollowUp := { interest with
    followUps := interest.followUps ++ [newFollowUp interest remarks nextFollowUpDate newId] }
  if !interest.contacted then { withFollowUp with contacted := true }
  else withFollowUp

/-- Running `addInterestFollowUp` n times in sequence on a submission,
with per-step remarks, dates and row ids, keeping the submission state
(the add on an existing submission never fails, so the error arm is dead). -/
def iterateAddFollowUps (remarks : Nat → String) (dates : Nat → Option Int)
    (ids : Nat → String) (sub : InterestSubmission) : Nat → InterestSubmission
  | 0 => sub
  | n + 1 =>
    match addInterestFollowUp (some (iterateAddFollowUps remarks dates ids sub n))
        (remarks n) (dates n) (ids n) with
    | .ok (_, s) => s
    | .error _ => iterateAddFollowUps remarks dates ids sub n

/-- Embedding of `deleteFollowUp(followUpId, businessId)`. `followUp?` is the
ownership-scoped `findFirst`; on success the row is removed from its
submission (no renumbering of siblings). `interest` is the submission the
follow-up belongs to. -/
def deleteFollowUp (followUp? : Option InterestFollowUp)
    (interest : InterestSubmission) : Except AppError InterestSubmission :=
  match followUp? with
  | none => .error (.NotFoundError "Follow-up not found")
  | some followUp =>
    .ok { interest with
          followUps := interest.followUps.filter (fun f => f.id ≠ followUp.id) }

/-- One `LeadSource` row. -/
structure LeadSource where
  id : String
  businessId : String
  name : String
  isDefault : Bool
deriving DecidableEq, Repr

/-- Embedding of `addLeadSource(businessId, name)`. `customSources` is the set of
`LeadSource` rows of this business (so the `findFirst` on
`{ businessId, name }` is a name lookup in it); `newId` is the id the
database assigns the created row. Both collision checks compare names by
exact (case-sensitive) string equality. -/
def addLeadSource (businessId : String) (name : String)
    (customSources : List LeadSource) (newId : String) :
    Except AppError LeadSource :=
  if DEFAULT_SOURCES.contains name then
    .error (.BadRequestError "This source already exists as a default source")
  else if customSources.any (fun s => s.name = name) then
    .error (.BadRequestError "This source already exists")
  else
    .ok { id := newId, businessId := businessId, name := name, isDefault := false }

/-- Embedding of `deleteLeadSource(sourceId, businessId)`. `source?` is the scoped
`findFirst`. -/
def deleteLeadSource (source? : Option LeadSource) : Except AppError Unit :=
  match source? with
  | none => .error (.NotFoundError "Lead source not found")
  | some source =>
    if source.isDefault then
      .error (.BadRequestError "Cannot delete default lead sources")
    else
      .ok ()

/-! ### Admin business service (src/unnamed/part_008) -/

/-- Embedding of `approveBusiness(businessId)`. `business?` is the `findUnique`;
`onboardingRequest?` is the transaction's `findFirst` on
`createdBusinessLoginId = business.businessLoginId`. Returns the updated
business and the (possibly token-cleared) onboarding request. -/
def approveBusiness (business? : Option Business)
    (onboardingRequest? : Option OnboardingRequest) :
    Except AppError (Business × Option OnboardingRequest) :=
  match business? with
  | none => .error (.NotFoundError "Business not found")
  | some business =>
    if business.status = .APPROVED then
      .error (.BadRequestError "Business already approved")
    else
      let updatedBusiness := { business with
        status := .APPROVED
        rejectionReason := none }
      let updatedRequest? :=
        match onboardingRequest? with
        | some r =>
          if r.onboardingToken.isSome then
            some { r with onboardingToken := none, tokenExpiresAt := none }
          else some r
        | none => none
      .ok (updatedBusiness, updatedRequest?)

/-- Embedding of `rejectBusiness(businessId, reason)`: symmetric to `approveBusiness`,
but guards only against an already-REJECTED business and stores the reason. -/
def rejectBusiness (business? : Option Business) (reason : String)
    (onboardingRequest? : Option OnboardingRequest) :
    Except AppError (Business × Option OnboardingRequest) :=
  match business? with
  | none => .error (.NotFoundError "Business not found")
  | some business =>
    if business.status = .REJECTED then
      .error (.BadRequestError "Business already rejected")
    else
      let updatedBusiness := { business with
        status := .REJECTED
        rejectionReason := some reason }
      let updatedRequest? :=
        match onboardingRequest? with
        | some r =>
          if r.onboardingToken.isSome then
            some { r with onboardingToken := none, tokenExpiresAt := none }
          else some r
        | none => none
      .ok (updatedBusiness, updatedRequest?)

/-! ### Sample rows (used by witnesses and concrete scenarios) -/

/-- A freshly submitted onboarding request (status PENDING, no token). -/
def sampleRequest : OnboardingRequest :=
  { id := "req-1", businessName := "Acme", email := "a@x.com", phoneNumber := "555"
    status := .PENDING, onboardingToken := none, tokenExpiresAt := none
    rejectionReason := none, createdBusinessLoginId := none }

/-- An approved onboarding request holding a live token that expires at t=1000. -/
def approvedRequest : OnboardingRequest :=
  { id := "req-2", businessName := "Acme", email := "a@x.com", phoneNumber := "555"
    status := .APPROVED, onboardingToken := some "tok-2", tokenExpiresAt := some 1000
    rejectionReason := none, createdBusinessLoginId := none }

/-- A PENDING business. -/
def pendingBusiness : Business :=
  { id := "biz-1", businessLoginId := "login-1", name := "Acme"
    status := .PENDING, rejectionReason := none, ownerEmail := "a@x.com" }

/-- A REJECTED business (carries a rejection reason). -/
def rejectedBusiness : Business :=
  { id := "biz-2", businessLoginId := "login-2", name := "Bmee"
    status := .REJECTED, rejectionReason := some "incomplete", ownerEmail := "b@x.com" }

/-- A fresh interest submission with no follow-ups. -/
def freshInterest : InterestSubmission :=
  { id := "int-1", businessId := "biz-1", investorName := "Ira", phoneNumber := "777"
    email := "ira@x.com", message := none, hasConsent := true, contacted := false
    followUpRemarks := none, status := .NOT_CONTACTED, source := "Website"
    followUps := [] }

/-- The row `approvedRequest` after its token has been consumed by a completed
registration that created the login "login-1". -/
def consumedRequest : OnboardingRequest :=
  { approvedRequest with createdBusinessLoginId := some "login-1" }

/-- An existing custom lead source named "Partner Network" for business biz-1. -/
def customPartner : LeadSource :=
  { id := "ls-0", businessId := "biz-1", name := "Partner Network", isDefault := false }

/-- First follow-up of the C5 scenario (number 1). -/
def fuOne : InterestFollowUp :=
  { id := "fu-1", interestSubmissionId := "int-1", followUpNumber := 1
    remarks := "first", nextFollowUpDate := none }

/-- Second follow-up of the C5 scenario (number 2, the highest). -/
def fuTwo : InterestFollowUp :=
  { id := "fu-2", interestSubmissionId := "int-1", followUpNumber := 2
    remarks := "second", nextFollowUpDate := none }

/-- Follow-up created after fu-2 was deleted: it gets number 2 again. -/
def fuThree : InterestFollowUp :=
  { id := "fu-3", interestSubmissionId := "int-1", followUpNumber := 2
    remarks := "third", nextFollowUpDate := none }

/-- The scenario submission after one follow-up. -/
def interestAfterOne : InterestSubmission :=
  { freshInterest with followUps := [fuOne], contacted := true }

/-- The scenario submission after two follow-ups. -/
def interestAfterTwo : InterestSubmission :=
  { freshInterest with followUps := [fuOne, fuTwo], contacted := true }

/-- The scenario submission after the number-2 slot was reused. -/
def interestAfterReuse : InterestSubmission :=
  { freshInterest with followUps := [fuOne, fuThree], contacted := true }

/-- The scenario submission holding only the number-2 follow-up
(fu-1 deleted while fu-2 remains). -/
def interestOnlyTwo : InterestSubmission :=
  { freshInterest with followUps := [fuTwo], contacted := true }

/-- Follow-up added to `interestOnlyTwo`: numbered 3 (= max 2 + 1), so the
deleted number 1 is not reused. -/
def fuFour : InterestFollowUp :=
  { id := "fu-4", interestSubmissionId := "int-1", followUpNumber := 3
    remarks := "fourth", nextFollowUpDate := none }

/-- The scenario submission after adding `fuFour`. -/
def interestAfterFour : InterestSubmission :=
  { freshInterest with followUps := [fuTwo, fuFour], contacted := true }

/-! ### Helper lemmas -/

/-- A member of a list of naturals is bounded by the list's max. -/
theorem nat_le_max?_of_mem (l : List Nat) {a m : Nat}
    (hm : l.max? = some m) (ha : a ∈ l) : a ≤ m := by
  have := (List.max?_eq_some_iff (fun a => Nat.le_refl a)
    (fun a b => max_choice a b) (fun a b c => Nat.max_le)).mp hm
  exact this.2 a ha

/-- Appending one element to a list of naturals: the new max. -/
theorem nat_max?_append_singleton (l : List Nat) (a : Nat) :
    (l ++ [a]).max? = some (l.max?.elim a (fun m => max m a)) := by
  induction l with
  | nil => simp [List.max?_cons]
  | cons x xs ih =>
    simp only [List.cons_append, List.max?_cons, ih, Option.elim]
    cases hxs : xs.max? with
    | none => simp [List.max?_cons, hxs]
    | some m => simp [List.max?_cons, hxs, Nat.max_assoc]

/-- The decomposition defs agree with `addInterestFollowUp` on an existing
submission. -/
theorem addInterestFollowUp_eq (interest : InterestSubmission) (remarks : String)
    (d : Option Int) (newId : String) :
    addInterestFollowUp (some interest) remarks d newId
      = .ok (newFollowUp interest remarks d newId,
             afterAddFollowUp interest remarks d newId) := rfl

/-- The follow-up list after an add is the old list with the new row appended. -/
theorem afterAddFollowUp_followUps (interest : InterestSubmission)
    (remarks : String) (d : Option Int) (newId : String) :
    (afterAddFollowUp interest remarks d newId).followUps
      = interest.followUps ++ [newFollowUp interest remarks d newId] := by
  unfold afterAddFollowUp
  cases interest.contacted <;> simp

/-- Max follow-up number of a list with one row appended. -/
theorem maxFollowUpNumber_append (l : List InterestFollowUp) (fu : InterestFollowUp) :
    maxFollowUpNumber (l ++ [fu])
      = some ((maxFollowUpNumber l).elim fu.followUpNumber
          (fun m => max m fu.followUpNumber)) := by
  unfold maxFollowUpNumber
  rw [List.map_append]
  exact nat_max?_append_singleton _ _

/-- On a submission that started with no follow-ups, after n adds the max
follow-up number is n (none when n = 0). -/
theorem iterate_maxFollowUpNumber (remarks : Nat → String) (dates : Nat → Option Int)
    (ids : Nat → String) (sub : InterestSubmission) (hfresh : sub.followUps = []) :
    ∀ n, maxFollowUpNumber (iterateAddFollowUps remarks dates ids sub n).followUps
      = if n = 0 then none else some n := by
  intro n
  induction n with
  | zero => simp [iterateAddFollowUps, maxFollowUpNumber, hfresh]
  | succ k ih =>
    rw [iterateAddFollowUps, addInterestFollowUp_eq]
    simp only [afterAddFollowUp_followUps, maxFollowUpNumber_append, ih]
    cases k with
    | zero => simp [newFollowUp, nextFollowUpNumberOf, ih]
    | succ j =>
      simp [newFollowUp, nextFollowUpNumberOf, ih, Option.elim,
        Nat.max_eq_right (Nat.le_succ _)]

/-! ### Claims -/

/-- C2: for an existing onboarding request, `approveOnboardingRequest` fails
with BadRequestError exactly when the status is APPROVED or REJECTED, and
`rejectOnboardingRequest` fails with BadRequestError exactly when the status
is APPROVED; otherwise the transition proceeds (approve regardless of email
delivery; reject returns the updated row when its uncaught email succeeds). -/
theorem onboarding_transition_guards (now : Int) (token reason : String)
    (envHours : Option Nat) (emailOk : Bool) (req : OnboardingRequest) :
    ((∃ msg, approveOnboardingRequest now token envHours emailOk (some req)
        = .error (.app (.BadRequestError msg)))
      ↔ (req.status = .APPROVED ∨ req.status = .REJECTED)) ∧
    ((∃ msg, rejectOnboardingRequest reason emailOk (some req)
        = .error (.app (.BadRequestError msg)))
      ↔ req.status = .APPROVED) ∧
    (¬(req.status = .APPROVED ∨ req.status = .REJECTED) →
      ∃ upd, approveOnboardingRequest now token envHours emailOk (some req) = .ok upd ∧
        upd.status = .APPROVED) ∧
    (req.status ≠ .APPROVED →
      ∃ upd, rejectOnboardingRequest reason true (some req) = .ok upd ∧
        upd.status = .REJECTED ∧ upd.rejectionReason = some reason) := by
  cases emailOk <;> cases hst : req.status <;>
    simp [approveOnboardingRequest, rejectOnboardingRequest, hst]

/-- C2 witness: a PENDING request is approvable, and `sampleRequest` with
status forced to APPROVED is not re-approvable. -/
theorem onboarding_transition_guards_witness :
    ¬(sampleRequest.status = .APPROVED ∨ sampleRequest.status = .REJECTED) ∧
    (∃ upd, approveOnboardingRequest 0 "tok" none true (some sampleRequest) = .ok upd ∧
      upd.status = .APPROVED) :=
  ⟨by decide,
    (onboarding_transition_guards 0 "tok" "r" none true sampleRequest).2.2.1 (by decide)⟩

/-- C3: a token whose `tokenExpiresAt` lies strictly in the past is rejected
with BadRequestError "Token has expired" by both `validateRegistrationToken`
and `completeBusinessRegistration`, even when the request is APPROVED. -/
theorem expired_token_rejected (now t : Int) (req : OnboardingRequest)
    (emailExists regNumExists : Bool) (newLoginId : String)
    (hs : req.status = .APPROVED) (ht : req.tokenExpiresAt = some t)
    (hlt : t < now) :
    validateRegistrationToken now (some req)
      = .error (.BadRequestError "Token has expired") ∧
    completeBusinessRegistration now emailExists regNumExists newLoginId (some req)
      = .error (.BadRequestError "Token has expired") := by
  constructor <;>
    simp [validateRegistrationToken, completeBusinessRegistration,
      isTokenExpired, hs, ht, hlt]

/-- C3 witness: `approvedRequest` (APPROVED, expires at 1000) is rejected as
expired at time 2000. -/
theorem expired_token_rejected_witness :
    validateRegistrationToken 2000 (some approvedRequest)
      = .error (.BadRequestError "Token has expired") ∧
    completeBusinessRegistration 2000 false false "login-9" (some approvedRequest)
      = .error (.BadRequestError "Token has expired") :=
  expired_token_rejected 2000 1000 approvedRequest false false "login-9"
    (by decide) (by decide) (by decide)

/-- C9: when the approval email fails (`emailOk = false`), the approval still
succeeds: the request comes back APPROVED, with the generated token stored
and `tokenExpiresAt` the default 72 hours after `now` (environment variable
unset). -/
theorem approval_survives_email_failure (now : Int) (token : String)
    (req : OnboardingRequest)
    (h1 : req.status ≠ .APPROVED) (h2 : req.status ≠ .REJECTED) :
    approveOnboardingRequest now token none false (some req)
      = .ok { req with
              status := .APPROVED
              onboardingToken := some token
              tokenExpiresAt := some (now + 72 * 3600000) } := by
  simp [approveOnboardingRequest, getTokenExpiration, h1, h2]

/-- C9 witness: approving `sampleRequest` at time 0 with a failing email. -/
theorem approval_survives_email_failure_witness :
    approveOnboardingRequest 0 "tok-9" none false (some sampleRequest)
      = .ok { sampleRequest with
              status := .APPROVED
              onboardingToken := some "tok-9"
              tokenExpiresAt := some ((0 : Int) + 72 * 3600000) } :=
  approval_survives_email_failure 0 "tok-9" sampleRequest (by decide) (by decide)

/-- C10: business status transitions are reversible: for an existing business,
`approveBusiness` fails exactly when the status is already APPROVED (so a
REJECTED business can be approved, clearing `rejectionReason`), and
`rejectBusiness` fails exactly when the status is already REJECTED (so an
APPROVED business can be rejected). -/
theorem business_transitions_reversible (b : Business) (reason : String)
    (onb? : Option OnboardingRequest) :
    ((∃ e, approveBusiness (some b) onb? = .error e) ↔ b.status = .APPROVED) ∧
    ((∃ e, rejectBusiness (some b) reason onb? = .error e) ↔ b.status = .REJECTED) ∧
    (b.status ≠ .APPROVED →
      ∃ r, approveBusiness (some b) onb? = .ok r ∧
        r.1.status = .APPROVED ∧ r.1.rejectionReason = none) ∧
    (b.status ≠ .REJECTED →
      ∃ r, rejectBusiness (some b) reason onb? = .ok r ∧
        r.1.status = .REJECTED ∧ r.1.rejectionReason = some reason) := by
  cases hst : b.status <;> simp [approveBusiness, rejectBusiness, hst]

/-- C10 witness: the REJECTED `rejectedBusiness` is approvable and its
rejection reason is cleared. -/
theorem business_transitions_reversible_witness :
    rejectedBusiness.status ≠ .APPROVED ∧
    (∃ r, approveBusiness (some rejectedBusiness) none = .ok r ∧
      r.1.status = .APPROVED ∧ r.1.rejectionReason = none) :=
  ⟨by decide,
    (business_transitions_reversible rejectedBusiness "r" none).2.2.1 (by decide)⟩

/-- C1: once `completeBusinessRegistration` succeeds for a token (setting
`createdBusinessLoginId` on the request row), a second completion attempt
with the same token — which looks up the same, now-updated row, the token
column being unique — fails with BadRequestError "Token has already been
used" (provided the token has not also expired by the second attempt, in
which case the earlier expiry guard fires first, still a BadRequestError). -/
theorem token_single_use (now1 now2 : Int) (e1 r1 e2 r2 : Bool)
    (id1 id2 : String) (req req' : OnboardingRequest) (login : BusinessLogin)
    (h : completeBusinessRegistration now1 e1 r1 id1 (some req) = .ok (req', login))
    (hexp : isTokenExpired now2 req'.tokenExpiresAt = false) :
    completeBusinessRegistration now2 e2 r2 id2 (some req')
      = .error (.BadRequestError "Token has already been used") := by
  simp only [completeBusinessRegistration] at h
  split_ifs at h with h1 h2 h3 h4 h5
  simp only [Except.ok.injEq, Prod.mk.injEq] at h
  obtain ⟨hreq, -⟩ := h
  subst hreq
  push_neg at h1
  simp [completeBusinessRegistration, h1, hexp]

/-- C1 witness: completing `approvedRequest` at time 0, then retrying at
time 1 (token still unexpired). -/
theorem token_single_use_witness :
    (completeBusinessRegistration 0 false false "login-1" (some approvedRequest)
      = .ok (consumedRequest, { id := "login-1", email := "a@x.com", isActive := true })) ∧
    isTokenExpired 1 consumedRequest.tokenExpiresAt = false ∧
    completeBusinessRegistration 1 false false "login-2" (some consumedRequest)
      = .error (.BadRequestError "Token has already been used") :=
  ⟨by rfl, by rfl,
    token_single_use 0 1 false false false false "login-1" "login-2"
      approvedRequest consumedRequest
      { id := "login-1", email := "a@x.com", isActive := true } (by rfl) (by rfl)⟩

/-- C4: `submitInterest` fails with NotFoundError when the business is
missing and with BadRequestError (HTTP 400) when the business is not
APPROVED; when the business is APPROVED it succeeds and the created
submission has status NOT_CONTACTED and contacted = false. -/
theorem submit_interest_requires_approved (business? : Option Business)
    (data : SubmitInterestData) (newId : String) :
    (business? = none →
      submitInterest business? data newId
        = .error (.NotFoundError "Business not found")) ∧
    (∀ b, business? = some b → b.status ≠ .APPROVED →
      submitInterest business? data newId
        = .error (.BadRequestError "Business is not available for investment inquiries") ∧
      (AppError.BadRequestError
        "Business is not available for investment inquiries").statusCode = 400) ∧
    (∀ b, business? = some b → b.status = .APPROVED →
      ∃ sub, submitInterest business? data newId = .ok sub ∧
        sub.status = .NOT_CONTACTED ∧ sub.contacted = false) := by
  refine ⟨fun h => by simp [h, submitInterest], fun b hb hs => ?_, fun b hb hs => ?_⟩
  · subst hb
    simp [submitInterest, hs, AppError.statusCode]
  · subst hb
    simp [submitInterest, hs, interestContactedDefault]

/-- C4 witness: submitting against the PENDING `pendingBusiness` is a 400
BadRequestError; submitting against an approved copy of it succeeds with
NOT_CONTACTED / contacted = false. -/
theorem submit_interest_requires_approved_witness :
    (submitInterest (some pendingBusiness)
        ⟨"biz-1", "Ira", "777", "IRA@X.com", none, none, none⟩ "int-9"
      = .error (.BadRequestError "Business is not available for investment inquiries") ∧
      (AppError.BadRequestError
        "Business is not available for investment inquiries").statusCode = 400) ∧
    (∃ sub, submitInterest (some { pendingBusiness with status := .APPROVED })
        ⟨"biz-1", "Ira", "777", "IRA@X.com", none, none, none⟩ "int-9" = .ok sub ∧
      sub.status = .NOT_CONTACTED ∧ sub.contacted = false) :=
  ⟨(submit_interest_requires_approved (some pendingBusiness)
      ⟨"biz-1", "Ira", "777", "IRA@X.com", none, none, none⟩ "int-9").2.1
      pendingBusiness rfl (by decide),
   (submit_interest_requires_approved (some { pendingBusiness with status := .APPROVED })
      ⟨"biz-1", "Ira", "777", "IRA@X.com", none, none, none⟩ "int-9").2.2
      { pendingBusiness with status := .APPROVED } rfl (by decide)⟩

/-- C7: when an `updateInterestFollowUp` payload sets status to INTERESTED
or NOT_INTERESTED, the updated submission has contacted = true, whatever the
payload's own `contacted` value (including an explicit false); and when
status is set to NOT_CONTACTED nothing forces contacted back to false — it
keeps the payload's explicit value, or the stored value when none is given. -/
theorem status_update_forces_contacted (interest : InterestSubmission)
    (data : UpdateInterestData) :
    ((data.status = some .INTERESTED ∨ data.status = some .NOT_INTERESTED) →
      ∃ upd, updateInterestFollowUp (some interest) data = .ok upd ∧
        upd.contacted = true) ∧
    (data.status = some .NOT_CONTACTED →
      ∃ upd, updateInterestFollowUp (some interest) data = .ok upd ∧
        upd.contacted = data.contacted.getD interest.contacted) := by
  constructor
  · rintro (hs | hs) <;>
      cases hc : data.contacted <;>
        cases hrem : data.followUpRemarks <;>
          cases hsrc : data.source <;>
            simp [updateInterestFollowUp, buildInterestUpdateData,
              applyInterestUpdate, hs, hc, hrem, hsrc]
  · intro hs
    cases hc : data.contacted <;>
      cases hrem : data.followUpRemarks <;>
        cases hsrc : data.source <;>
          simp [updateInterestFollowUp, buildInterestUpdateData,
            applyInterestUpdate, hs, hc, hrem, hsrc]

/-- C7 witness: status INTERESTED with an explicit contacted = false still
yields contacted = true on `freshInterest`. -/
theorem status_update_forces_contacted_witness :
    ((some InterestStatus.INTERESTED = some .INTERESTED ∨
      some InterestStatus.INTERESTED = some .NOT_INTERESTED)) ∧
    (∃ upd, updateInterestFollowUp (some freshInterest)
        ⟨some false, none, some .INTERESTED, none⟩ = .ok upd ∧
      upd.contacted = true) :=
  ⟨Or.inl rfl,
    (status_update_forces_contacted freshInterest
      ⟨some false, none, some .INTERESTED, none⟩).1 (Or.inl rfl)⟩

/-- C8 counterexample: adding the custom lead source "Website" (which
collides with a default source) raises BadRequestError — HTTP 400 — not
ConflictError / 409 as the claim states. -/
theorem lead_source_collision_not_conflict :
    addLeadSource "biz-1" "Website" [] "ls-1"
      = .error (.BadRequestError "This source already exists as a default source") ∧
    (AppError.BadRequestError
      "This source already exists as a default source").statusCode = 400 :=
  ⟨by rfl, by rfl⟩

/-- C8 (amended): `addLeadSource` rejects a name that collides — by exact,
case-sensitive string equality — with a default source or with an existing
custom source of the same business, raising BadRequestError (HTTP 400);
a non-colliding name is accepted as a non-default source. -/
theorem lead_source_collision_rules (businessId name newId : String)
    (customSources : List LeadSource) :
    (name ∈ DEFAULT_SOURCES →
      addLeadSource businessId name customSources newId
        = .error (.BadRequestError "This source already exists as a default source")) ∧
    (name ∉ DEFAULT_SOURCES → (∃ s ∈ customSources, s.name = name) →
      addLeadSource businessId name customSources newId
        = .error (.BadRequestError "This source already exists")) ∧
    (name ∉ DEFAULT_SOURCES → (∀ s ∈ customSources, s.name ≠ name) →
      addLeadSource businessId name customSources newId
        = .ok { id := newId, businessId := businessId, name := name,
                isDefault := false }) ∧
    (AppError.BadRequestError "This source already exists").statusCode = 400 := by
  refine ⟨fun hmem => ?_, fun hmem hex => ?_, fun hmem hall => ?_, rfl⟩
  · simp [addLeadSource, List.elem_iff, hmem]
  · obtain ⟨s, hs, hname⟩ := hex
    have h1 : DEFAULT_SOURCES.contains name = false := by
      simp [List.elem_iff]; exact hmem
    have h2 : (customSources.any fun s => s.name = name) = true :=
      List.any_eq_true.mpr ⟨s, hs, by simp [hname]⟩
    simp [addLeadSource, h1, h2, hmem]
  · have h1 : DEFAULT_SOURCES.contains name = false := by
      simp [List.elem_iff]; exact hmem
    have h2 : ¬((customSources.any fun s => s.name = name) = true) := by
      simp only [List.any_eq_true, decide_eq_true_eq]
      rintro ⟨s, hs, hname⟩
      exact hall s hs hname
    simp [addLeadSource, h1, h2, hmem]

/-- C8 witness: a custom source colliding with an existing custom entry of
the same business is rejected with BadRequestError. -/
theorem lead_source_collision_rules_witness :
    ("Partner Network" ∉ DEFAULT_SOURCES) ∧
    (∃ s ∈ [customPartner], s.name = "Partner Network") ∧
    addLeadSource "biz-1" "Partner Network" [customPartner] "ls-1"
      = .error (.BadRequestError "This source already exists") :=
  ⟨by decide, ⟨customPartner, by simp, rfl⟩,
    (lead_source_collision_rules "biz-1" "Partner Network" "ls-1" [customPartner]).2.1
      (by decide) ⟨customPartner, by simp, rfl⟩⟩

/-- C6: `addInterestFollowUp` numbers a new follow-up (max existing
followUpNumber) + 1, and 1 when no follow-ups exist; consequently on a
submission that starts with no follow-ups and sees only additions, the Nth
added follow-up carries followUpNumber = N. -/
theorem followup_numbering (interest : InterestSubmission) (r0 : String)
    (d0 : Option Int) (id0 : String) (remarks : Nat → String)
    (dates : Nat → Option Int) (ids : Nat → String) (sub : InterestSubmission) :
    (∃ fu s, addInterestFollowUp (some interest) r0 d0 id0 = .ok (fu, s) ∧
      fu.followUpNumber = (match maxFollowUpNumber interest.followUps with
        | some m => m + 1
        | none => 1) ∧
      (interest.followUps = [] → fu.followUpNumber = 1)) ∧
    (sub.followUps = [] → ∀ n : Nat, ∃ fu s,
      addInterestFollowUp (some (iterateAddFollowUps remarks dates ids sub n))
        (remarks n) (dates n) (ids n) = .ok (fu, s) ∧
      fu.followUpNumber = n + 1) := by
  constructor
  · refine ⟨_, _, addInterestFollowUp_eq interest r0 d0 id0, rfl, ?_⟩
    intro h
    simp [newFollowUp, nextFollowUpNumberOf, maxFollowUpNumber, h]
  · intro hfresh n
    refine ⟨_, _, addInterestFollowUp_eq _ _ _ _, ?_⟩
    have hmax := iterate_maxFollowUpNumber remarks dates ids sub hfresh n
    cases n with
    | zero => simp [newFollowUp, nextFollowUpNumberOf, hmax]
    | succ k => simp [newFollowUp, nextFollowUpNumberOf, hmax]

/-- C6 witness: on `freshInterest`, after two additions the third created
follow-up is numbered 3 = 2 + 1. -/
theorem followup_numbering_witness :
    freshInterest.followUps = [] ∧
    (∃ fu s, addInterestFollowUp
        (some (iterateAddFollowUps (fun _ => "r") (fun _ => none) (fun _ => "fu-x")
          freshInterest 2))
        "r" none "fu-x" = .ok (fu, s) ∧
      fu.followUpNumber = 2 + 1) :=
  ⟨rfl, (followup_numbering freshInterest "r" none "fu-x"
    (fun _ => "r") (fun _ => none) (fun _ => "fu-x") freshInterest).2 rfl 2⟩

/-- C5 counterexample: on a fresh submission, add follow-ups numbered 1 and 2,
delete the highest-numbered one (number 2), then add again: the new follow-up
is numbered 2 — the number of the deleted entry is assigned a second time,
refuting "a followUpNumber once assigned is never assigned again, even after
the highest-numbered follow-up is deleted". -/
theorem followup_number_reused_counterexample :
    addInterestFollowUp (some freshInterest) "first" none "fu-1"
      = .ok (fuOne, interestAfterOne) ∧
    addInterestFollowUp (some interestAfterOne) "second" none "fu-2"
      = .ok (fuTwo, interestAfterTwo) ∧
    deleteFollowUp (some fuTwo) interestAfterTwo = .ok interestAfterOne ∧
    addInterestFollowUp (some interestAfterOne) "third" none "fu-3"
      = .ok (fuThree, interestAfterReuse) ∧
    fuTwo.followUpNumber = 2 ∧ fuThree.followUpNumber = 2 :=
  ⟨by rfl, by rfl, by rfl, by rfl, rfl, rfl⟩

/-- C5 (amended): the next followUpNumber is always (max existing) + 1, so a
number below the current maximum is never handed out again: deleting a
follow-up while a higher-numbered one remains never lets the next addition
reuse the deleted number. Only deleting the highest-numbered follow-up frees
its number for reassignment (the counterexample). -/
theorem followup_number_not_reused_below_max
    (interest sub' sub2 : InterestSubmission) (fu g fu2 : InterestFollowUp)
    (remarks : String) (d : Option Int) (nid : String)
    (hg : g ∈ interest.followUps) (hgid : g.id ≠ fu.id)
    (hnum : fu.followUpNumber < g.followUpNumber)
    (hdel : deleteFollowUp (some fu) interest = .ok sub')
    (hadd : addInterestFollowUp (some sub') remarks d nid = .ok (fu2, sub2)) :
    fu2.followUpNumber ≠ fu.followUpNumber := by
  simp only [deleteFollowUp, Except.ok.injEq] at hdel
  subst hdel
  rw [addInterestFollowUp_eq] at hadd
  simp only [Except.ok.injEq, Prod.mk.injEq] at hadd
  obtain ⟨hfu2, -⟩ := hadd
  subst hfu2
  have hmem : g ∈ (interest.followUps.filter (fun f => f.id ≠ fu.id)) :=
    List.mem_filter.mpr ⟨hg, by simp [hgid]⟩
  have hmemmap : g.followUpNumber ∈
      ((interest.followUps.filter (fun f => f.id ≠ fu.id)).map
        InterestFollowUp.followUpNumber) :=
    List.mem_map_of_mem _ hmem
  simp only [newFollowUp, nextFollowUpNumberOf, maxFollowUpNumber]
  cases hmax : ((interest.followUps.filter (fun f => f.id ≠ fu.id)).map
      InterestFollowUp.followUpNumber).max? with
  | none =>
    rw [List.max?_eq_none_iff] at hmax
    rw [hmax] at hmemmap
    simp at hmemmap
  | some m =>
    have hle := nat_le_max?_of_mem _ hmax hmemmap
    simp only [hmax]
    omega

/-- C5 witness: deleting number 1 while number 2 remains; the next follow-up
gets number 3, not the freed 1. -/
theorem followup_number_not_reused_below_max_witness :
    fuTwo ∈ interestAfterTwo.followUps ∧
    fuTwo.id ≠ fuOne.id ∧
    fuOne.followUpNumber < fuTwo.followUpNumber ∧
    deleteFollowUp (some fuOne) interestAfterTwo = .ok interestOnlyTwo ∧
    addInterestFollowUp (some interestOnlyTwo) "fourth" none "fu-4"
      = .ok (fuFour, interestAfterFour) ∧
    fuFour.followUpNumber ≠ fuOne.followUpNumber :=
  ⟨by decide, by decide, by decide, by rfl, by rfl,
    followup_number_not_reused_below_max interestAfterTwo interestOnlyTwo
      interestAfterFour fuOne fuTwo fuFour "fourth" none "fu-4"
      (by decide) (by decide) (by decide) (by rfl) (by rfl)⟩

end Aarthiq
